import Mathlib

/-!
# Verification of the weekly task-tracking core (testingbots)

A shallow embedding of the repository's task lifecycle and weekly
accounting engine:

* `src/database/models.py` — the data model (User, Chat, UserChat, Task,
  WeeklyStat);
* `src/database/manager.py` — `DatabaseManager`, translated as pure
  functions over an explicit `DB` state (the SQLite tables become lists
  of rows; each method is a state transformer);
* `src/services/task_service.py` — `TaskService`;
* `src/services/statistics_service.py` — `StatisticsService`.

The Python code computes week numbers with `datetime.isocalendar()`, so
we embed CPython's proleptic-Gregorian ordinal arithmetic and its
`isocalendar` algorithm first.

Times are modelled at day granularity (`PyDate`): every week/year
computation in the source depends only on the calendar date of the
wall-clock instant, and `updated_at`/`created_at` are carried as the
date of the invocation instant.  Python floats produced by
`completed / created` are modelled as rationals; the numerators and
denominators involved are small counts, for which the bound and
zero-guard properties claimed by the spec coincide for `float` and `ℚ`.
-/

/-! ## CPython date arithmetic (`datetime._ymd2ord`, `isocalendar`) -/

/-- A proleptic Gregorian calendar date, as CPython's `datetime.date`
(year ≥ 1 in Python; the model is total on `Int` years). -/
structure PyDate where
  year : Int
  month : Nat
  day : Nat
deriving DecidableEq, Repr

/-- CPython `_is_leap(year)`: `year % 4 == 0 and (year % 100 != 0 or year % 400 == 0)`. -/
def pyIsLeap (year : Int) : Bool :=
  year % 4 == 0 && (year % 100 != 0 || year % 400 == 0)

/-- CPython `_days_before_year(year)`: days in all years preceding `year`. -/
def pyDaysBeforeYear (year : Int) : Int :=
  let y := year - 1
  y * 365 + y / 4 - y / 100 + y / 400

/-- CPython `_DAYS_BEFORE_MONTH[month]` (cumulative days before the month in a
non-leap year; month is 1-based). -/
def pyDaysBeforeMonthTable (month : Nat) : Int :=
  match month with
  | 1 => 0 | 2 => 31 | 3 => 59 | 4 => 90 | 5 => 120 | 6 => 151
  | 7 => 181 | 8 => 212 | 9 => 243 | 10 => 273 | 11 => 304 | 12 => 334
  | _ => 0

/-- CPython `_days_before_month(year, month)`. -/
def pyDaysBeforeMonth (year : Int) (month : Nat) : Int :=
  pyDaysBeforeMonthTable month + (if month > 2 && pyIsLeap year then 1 else 0)

/-- CPython `_ymd2ord(year, month, day)`: proleptic Gregorian ordinal, with
0001-01-01 as ordinal 1. -/
def pyYmd2ord (d : PyDate) : Int :=
  pyDaysBeforeYear d.year + pyDaysBeforeMonth d.year d.month + (d.day : Int)

/-- CPython `_isoweek1monday(year)`: ordinal of the Monday starting ISO week 1
of `year` (`THURSDAY = 3`; `firstweekday` is 0 for Monday). -/
def pyIsoweek1monday (year : Int) : Int :=
  let firstday := pyYmd2ord ⟨year, 1, 1⟩
  let firstweekday := (firstday + 6) % 7
  let week1monday := firstday - firstweekday
  if firstweekday > 3 then week1monday + 7 else week1monday

/-- CPython `date.isocalendar()`: the (ISO year, ISO week, ISO weekday) triple.
Python's `divmod` is floor division, hence `Int.fdiv`/`Int.fmod`. -/
def PyDate.isocalendar (d : PyDate) : Int × Int × Int :=
  let year := d.year
  let today := pyYmd2ord d
  let week1monday := pyIsoweek1monday year
  let week := Int.fdiv (today - week1monday) 7
  let day := Int.fmod (today - week1monday) 7
  if week < 0 then
    let year := year - 1
    let week1monday := pyIsoweek1monday year
    let week := Int.fdiv (today - week1monday) 7
    let day := Int.fmod (today - week1monday) 7
    (year, week + 1, day + 1)
  else if week >= 52 && today >= pyIsoweek1monday (year + 1) then
    (year + 1, 1, day + 1)
  else
    (year, week + 1, day + 1)

/-- `now.isocalendar()[1]` — the ISO week number, as used throughout the
services. -/
def PyDate.isoWeek (d : PyDate) : Int := d.isocalendar.2.1

/-- `isocalendar()[0]` — the ISO week-based year (what the spec's glossary
refers to; the services do NOT use this, they use `.year`). -/
def PyDate.isoYear (d : PyDate) : Int := d.isocalendar.1

/-! ## Configuration (`src/config.py`) -/

/-- `config.MIN_TASKS_PER_WEEK = 3`. -/
def MIN_TASKS_PER_WEEK : Nat := 3

/-- `config.MAX_TASKS_PER_WEEK = 5`. -/
def MAX_TASKS_PER_WEEK : Nat := 5

/-- `config.TASK_STATUS.values()` = `['created', 'completed', 'canceled']`. -/
def TASK_STATUS_values : List String := ["created", "completed", "canceled"]

/-! ## Data model (`src/database/models.py`)

Presentation-only timestamp fields that no claimed operation reads
(`registration_date`, `joined_at`, chat `created_at`) and the
store-assigned `stat_id` of `WeeklyStat` (never read back by the core)
are omitted; every field that influences control flow or claimed state
is kept. -/

/-- A row of the `users` table. -/
structure UserRec where
  user_id : Int
  username : Option String
  first_name : Option String
  last_name : Option String
  is_active : Bool
deriving DecidableEq, Repr

/-- A row of the `chats` table. -/
structure ChatRec where
  chat_id : Int
  title : Option String
  chat_type : String
  is_active : Bool
deriving DecidableEq, Repr

/-- A row of the `user_chats` table (PRIMARY KEY (user_id, chat_id)). -/
structure UserChatRec where
  user_id : Int
  chat_id : Int
  is_active : Bool
deriving DecidableEq, Repr

/-- A row of the `tasks` table. -/
structure TaskRec where
  task_id : Nat
  user_id : Int
  chat_id : Int
  description : String
  status : String
  created_at : PyDate
  updated_at : PyDate
  week_number : Int
  year : Int
deriving DecidableEq, Repr

/-- A row of the `weekly_stats` table (`completion_rate REAL` modelled as ℚ). -/
structure WeeklyStatRec where
  user_id : Int
  chat_id : Int
  week_number : Int
  year : Int
  tasks_created : Nat
  tasks_completed : Nat
  tasks_canceled : Nat
  completion_rate : ℚ
deriving DecidableEq, Repr

/-- The SQLite database state: the five tables, plus the AUTOINCREMENT
counter for `tasks.task_id` (SQLite assigns 1, 2, …; `lastrowid` is the
id just assigned). -/
structure DB where
  users : List UserRec
  chats : List ChatRec
  user_chats : List UserChatRec
  tasks : List TaskRec
  weekly_stats : List WeeklyStatRec
  next_task_id : Nat
deriving DecidableEq, Repr

/-! ## `DatabaseManager` (`src/database/manager.py`)

Each method opens its own SQLite connection and closes it before
returning (`_connect` / `_disconnect` around every call), so no
transaction ever spans two method calls; each method is translated as
one pure state transformer.  The `except sqlite3.Error` arms are the
store-failure paths; the embedded store is total, so they are
unreachable here. -/

namespace DatabaseManager

/-- `get_user_chat`: `SELECT * FROM user_chats WHERE user_id = ? AND chat_id = ?`,
`fetchone`. -/
def get_user_chat (db : DB) (user_id chat_id : Int) : Option UserChatRec :=
  db.user_chats.find? (fun uc => uc.user_id == user_id && uc.chat_id == chat_id)

/-- `get_chat_users`: users joined with `user_chats` on the chat, both sides
active.  (`(user_id, chat_id)` is the primary key of `user_chats`, so the
join contributes each user at most once.) -/
def get_chat_users (db : DB) (chat_id : Int) : List UserRec :=
  db.users.filter (fun u =>
    u.is_active &&
      db.user_chats.any (fun uc =>
        uc.user_id == u.user_id && uc.chat_id == chat_id && uc.is_active))

/-- `get_task`: `SELECT * FROM tasks WHERE task_id = ?`, `fetchone`. -/
def get_task (db : DB) (task_id : Nat) : Option TaskRec :=
  db.tasks.find? (fun t => t.task_id == task_id)

/-- `get_user_tasks_in_chat`: filters by user and chat, and additionally by
week and year only when BOTH optional parameters are supplied. -/
def get_user_tasks_in_chat (db : DB) (user_id chat_id : Int)
    (week_number year : Option Int) : List TaskRec :=
  match week_number, year with
  | some w, some y =>
      db.tasks.filter (fun t =>
        t.user_id == user_id && t.chat_id == chat_id &&
          t.week_number == w && t.year == y)
  | _, _ =>
      db.tasks.filter (fun t => t.user_id == user_id && t.chat_id == chat_id)

/-- `create_task`: INSERT of all task fields; returns `lastrowid`. -/
def create_task (db : DB) (t : TaskRec) : Option Nat × DB :=
  let assigned := db.next_task_id
  (some assigned,
   { db with
      tasks := db.tasks ++ [{ t with task_id := assigned }]
      next_task_id := assigned + 1 })

/-- `update_task`: `UPDATE tasks SET description = ?, status = ?, updated_at = ?
WHERE task_id = ?`; returns `True` (even when no row matches). -/
def update_task (db : DB) (t : TaskRec) : Bool × DB :=
  (true,
   { db with
      tasks := db.tasks.map (fun r =>
        if r.task_id == t.task_id then
          { r with description := t.description, status := t.status,
                   updated_at := t.updated_at }
        else r) })

/-- `delete_task`: `DELETE FROM tasks WHERE task_id = ?`; returns
`rowcount > 0`. -/
def delete_task (db : DB) (task_id : Nat) : Bool × DB :=
  let remaining := db.tasks.filter (fun t => !(t.task_id == task_id))
  (decide (remaining.length < db.tasks.length), { db with tasks := remaining })

/-- `count_user_tasks_in_chat`: `SELECT COUNT(*) FROM tasks WHERE user_id = ?
AND chat_id = ? AND week_number = ? AND year = ?`. -/
def count_user_tasks_in_chat (db : DB) (user_id chat_id : Int)
    (week_number year : Int) : Nat :=
  (db.tasks.filter (fun t =>
    t.user_id == user_id && t.chat_id == chat_id &&
      t.week_number == week_number && t.year == year)).length

/-- The key predicate of the `weekly_stats` natural key
(`user_id`, `chat_id`, `week_number`, `year`). -/
def statKeyMatches (s : WeeklyStatRec) (user_id chat_id week_number year : Int) : Bool :=
  s.user_id == user_id && s.chat_id == chat_id &&
    s.week_number == week_number && s.year == year

/-- `get_weekly_stat`: SELECT by the four-column natural key, `fetchone`. -/
def get_weekly_stat (db : DB) (user_id chat_id : Int) (week_number year : Int) :
    Option WeeklyStatRec :=
  db.weekly_stats.find? (fun s => statKeyMatches s user_id chat_id week_number year)

/-- `create_or_update_weekly_stat`: its `try` body first calls
`self.get_weekly_stat(...)`, whose `finally` clause runs `_disconnect` and
sets `self.cursor = None`; the very next statement,
`self.cursor.execute(UPDATE/INSERT …)`, therefore raises `AttributeError`
on EVERY invocation, in both branches, before any row is written, and the
`except sqlite3.Error` arm does not catch it.  The method never persists a
record and never returns `True` — modelled as the raising call, with the
store untouched. -/
def create_or_update_weekly_stat (_db : DB) (_stat : WeeklyStatRec) :
    Except String (Bool × DB) :=
  Except.error "AttributeError: NoneType cursor after get_weekly_stat disconnects"

/-- The stat object built for one user by
`DatabaseManager.generate_weekly_stats_for_chat` (lines 636–679): the three
COUNT queries, the guarded completion rate, and the `WeeklyStat`
constructor — everything the iteration computes before it attempts the
upsert. -/
def weekly_stat_for_user (db : DB) (user_id chat_id week_number year : Int) :
    WeeklyStatRec :=
  let tasks_created := count_user_tasks_in_chat db user_id chat_id week_number year
  let tasks_completed := (db.tasks.filter (fun t =>
    t.user_id == user_id && t.chat_id == chat_id &&
      t.week_number == week_number && t.year == year &&
      t.status == "completed")).length
  let tasks_canceled := (db.tasks.filter (fun t =>
    t.user_id == user_id && t.chat_id == chat_id &&
      t.week_number == week_number && t.year == year &&
      t.status == "canceled")).length
  let completion_rate : ℚ :=
    if tasks_created > 0 then (tasks_completed : ℚ) / (tasks_created : ℚ) else 0
  { user_id := user_id, chat_id := chat_id, week_number := week_number,
    year := year, tasks_created := tasks_created,
    tasks_completed := tasks_completed, tasks_canceled := tasks_canceled,
    completion_rate := completion_rate }

/-- The per-user loop of `DatabaseManager.generate_weekly_stats_for_chat`
(lines 635–683): builds the stat, then calls the upsert with no inner
`try` — the upsert's `AttributeError` is not a `sqlite3.Error`, so it
propagates out of the whole method.  Only a chat with no active member
completes normally. -/
def generate_weekly_stats_for_chat_loop (db : DB) (user_ids : List Int)
    (chat_id week_number year : Int) : Except String (List WeeklyStatRec × DB) :=
  match user_ids with
  | [] => Except.ok ([], db)
  | user_id :: rest =>
      let stat := weekly_stat_for_user db user_id chat_id week_number year
      match create_or_update_weekly_stat db stat with
      | Except.error e => Except.error e
      | Except.ok r =>
          match generate_weekly_stats_for_chat_loop r.2 rest chat_id week_number year with
          | Except.error e => Except.error e
          | Except.ok rest_r => Except.ok (stat :: rest_r.1, rest_r.2)

/-- `DatabaseManager.generate_weekly_stats_for_chat(chat_id, week_number, year)`:
active users of the chat (same join as `get_chat_users`, selecting ids),
then the per-user loop; the first member's upsert raises, so the call
raises for every chat with an active member. -/
def generate_weekly_stats_for_chat (db : DB) (chat_id week_number year : Int) :
    Except String (List WeeklyStatRec × DB) :=
  let user_ids := (get_chat_users db chat_id).map (fun u => u.user_id)
  generate_weekly_stats_for_chat_loop db user_ids chat_id week_number year

/-- `DatabaseManager.generate_weekly_stats_for_all_chats(week_number, year)`:
`SELECT chat_id FROM chats WHERE is_active = 1`, then the per-chat loop
building `results[chat_id] = stats`; the per-chat `AttributeError`
propagates here too. -/
def generate_weekly_stats_for_all_chats (db : DB) (week_number year : Int) :
    Except String (List (Int × List WeeklyStatRec) × DB) :=
  let chat_ids := (db.chats.filter (fun c => c.is_active)).map (fun c => c.chat_id)
  let rec loop (db : DB) : List Int → Except String (List (Int × List WeeklyStatRec) × DB)
    | [] => Except.ok ([], db)
    | c :: rest =>
        match generate_weekly_stats_for_chat db c week_number year with
        | Except.error e => Except.error e
        | Except.ok r =>
            match loop r.2 rest with
            | Except.error e => Except.error e
            | Except.ok rest_r => Except.ok ((c, r.1) :: rest_r.1, rest_r.2)
  loop db chat_ids

/-- `DatabaseManager` defines NO method `get_all_active_chats`; the attribute
lookup `self.db_manager.get_all_active_chats` in
`StatisticsService.generate_weekly_stats_for_all_chats` raises
`AttributeError` at run time.  Modelled as the raising call. -/
def get_all_active_chats (_db : DB) : Except String (List ChatRec) :=
  Except.error "AttributeError: DatabaseManager has no attribute get_all_active_chats"

end DatabaseManager

/-! ## `TaskService` (`src/services/task_service.py`)

The wall-clock instant `datetime.datetime.now()` read by a method is
passed in as the `now : PyDate` parameter.  The `except Exception` arms
wrap bodies that cannot raise in the embedded store, so they are
unreachable here. -/

/-- The dictionary returned by `TaskService.can_create_task`: keys
`can_create`, `reason` (present only on refusal), `min_tasks_remaining`
(present only while the weekly minimum is not yet met). -/
structure CanCreateResult where
  can_create : Bool
  reason : Option String
  min_tasks_remaining : Option Nat
deriving DecidableEq, Repr

namespace TaskService

/-- `TaskService.create_task(user_id, chat_id, description)`: membership
check, quota check against the current ISO week number and the calendar
year of `now`, then the INSERT.  (`task_id := 0` below is the
placeholder for Python's `task_id=None`; the store assigns the real id.) -/
def create_task (db : DB) (user_id chat_id : Int) (description : String)
    (now : PyDate) : Option Nat × DB :=
  match DatabaseManager.get_user_chat db user_id chat_id with
  | none => (none, db)
  | some user_chat =>
      if !user_chat.is_active then (none, db)
      else
        let week_number := now.isoWeek
        let year := now.year
        let task_count :=
          DatabaseManager.count_user_tasks_in_chat db user_id chat_id week_number year
        if task_count >= MAX_TASKS_PER_WEEK then (none, db)
        else
          DatabaseManager.create_task db
            { task_id := 0, user_id := user_id, chat_id := chat_id,
              description := description, status := "created",
              created_at := now, updated_at := now,
              week_number := week_number, year := year }

/-- The read phase of `TaskService.create_task`: the decision it takes from
the db snapshot seen by its two reads (`get_user_chat`,
`count_user_tasks_in_chat`).  Each `DatabaseManager` call opens and closes
its own SQLite connection, so nothing makes this phase and the INSERT
phase atomic: a second concurrent call can run its read phase against the
same snapshot before the first call's INSERT lands. -/
def create_task_check (db : DB) (user_id chat_id : Int) (now : PyDate) : Bool :=
  match DatabaseManager.get_user_chat db user_id chat_id with
  | none => false
  | some user_chat =>
      user_chat.is_active &&
        decide (DatabaseManager.count_user_tasks_in_chat db user_id chat_id
          now.isoWeek now.year < MAX_TASKS_PER_WEEK)

/-- The write phase of `TaskService.create_task`: the INSERT it performs once
its read phase has approved. -/
def create_task_insert (db : DB) (user_id chat_id : Int) (description : String)
    (now : PyDate) : Option Nat × DB :=
  DatabaseManager.create_task db
    { task_id := 0, user_id := user_id, chat_id := chat_id,
      description := description, status := "created",
      created_at := now, updated_at := now,
      week_number := now.isoWeek, year := now.year }

/-- `TaskService.get_user_tasks(user_id, chat_id, week_number=None, year=None)`:
when EITHER optional argument is missing, BOTH are replaced by the current
week number and current year before querying. -/
def get_user_tasks (db : DB) (user_id chat_id : Int)
    (week_number year : Option Int) (now : PyDate) : List TaskRec :=
  if week_number.isNone || year.isNone then
    DatabaseManager.get_user_tasks_in_chat db user_id chat_id
      (some now.isoWeek) (some now.year)
  else
    DatabaseManager.get_user_tasks_in_chat db user_id chat_id week_number year

/-- `TaskService.update_task_status(task_id, status)`: status validation
against `config.TASK_STATUS.values()`, task lookup, then
`DatabaseManager.update_task` on the task with the new status and a fresh
`updated_at`. -/
def update_task_status (db : DB) (task_id : Nat) (status : String)
    (now : PyDate) : Bool × DB :=
  if !(TASK_STATUS_values.contains status) then (false, db)
  else
    match DatabaseManager.get_task db task_id with
    | none => (false, db)
    | some task =>
        DatabaseManager.update_task db
          { task with status := status, updated_at := now }

/-- `TaskService.delete_task(task_id)`: lookup, then DELETE. -/
def delete_task (db : DB) (task_id : Nat) : Bool × DB :=
  match DatabaseManager.get_task db task_id with
  | none => (false, db)
  | some _ => DatabaseManager.delete_task db task_id

/-- `TaskService.can_create_task(user_id, chat_id)`. -/
def can_create_task (db : DB) (user_id chat_id : Int) (now : PyDate) :
    CanCreateResult :=
  match DatabaseManager.get_user_chat db user_id chat_id with
  | none =>
      { can_create := false,
        reason := some "User is not registered in this chat",
        min_tasks_remaining := none }
  | some user_chat =>
      if !user_chat.is_active then
        { can_create := false,
          reason := some "User is not registered in this chat",
          min_tasks_remaining := none }
      else
        let task_count := DatabaseManager.count_user_tasks_in_chat db user_id
          chat_id now.isoWeek now.year
        if task_count >= MAX_TASKS_PER_WEEK then
          { can_create := false,
            reason := some ("Maximum number of tasks (" ++
              toString MAX_TASKS_PER_WEEK ++ ") reached for this week"),
            min_tasks_remaining := none }
        else if task_count + 1 < MIN_TASKS_PER_WEEK then
          { can_create := true, reason := none,
            min_tasks_remaining := some (MIN_TASKS_PER_WEEK - (task_count + 1)) }
        else
          { can_create := true, reason := none, min_tasks_remaining := none }

end TaskService

/-! ## `StatisticsService` (`src/services/statistics_service.py`) -/

namespace StatisticsService

/-- The per-user body of `StatisticsService.generate_weekly_stats_for_chat`
(lines 46–88): fetch the user's tasks for the week, count by status,
guarded completion rate, build the `WeeklyStat`, attempt the upsert inside
its own `try … except Exception` (lines 75–82) — the upsert's
`AttributeError` is caught there and only logged, so the store is never
written — and append the stat to the result regardless. -/
def generate_weekly_stats_for_chat_loop (db : DB) (users : List UserRec)
    (chat_id week_number year : Int) : List WeeklyStatRec × DB :=
  match users with
  | [] => ([], db)
  | user :: rest =>
      let tasks := DatabaseManager.get_user_tasks_in_chat db user.user_id chat_id
        (some week_number) (some year)
      let total_tasks := tasks.length
      let completed_tasks := (tasks.filter (fun t => t.status == "completed")).length
      let canceled_tasks := (tasks.filter (fun t => t.status == "canceled")).length
      let completion_rate : ℚ :=
        if total_tasks > 0 then (completed_tasks : ℚ) / (total_tasks : ℚ) else 0
      let stat : WeeklyStatRec :=
        { user_id := user.user_id, chat_id := chat_id,
          week_number := week_number, year := year,
          tasks_created := total_tasks, tasks_completed := completed_tasks,
          tasks_canceled := canceled_tasks, completion_rate := completion_rate }
      let db1 := match DatabaseManager.create_or_update_weekly_stat db stat with
        | Except.ok r => r.2
        | Except.error _ => db
      let rest_r := generate_weekly_stats_for_chat_loop db1 rest chat_id week_number year
      (stat :: rest_r.1, rest_r.2)

/-- `StatisticsService.generate_weekly_stats_for_chat(chat_id)`: current ISO
week number and calendar year of `now`, the chat's active users, then the
per-user loop. -/
def generate_weekly_stats_for_chat (db : DB) (chat_id : Int) (now : PyDate) :
    List WeeklyStatRec × DB :=
  generate_weekly_stats_for_chat_loop db (DatabaseManager.get_chat_users db chat_id)
    chat_id now.isoWeek now.year

/-- The per-chat loop of `StatisticsService.generate_weekly_stats_for_all_chats`
(lines 109–111), building `results[chat.chat_id] = stats` in chat order. -/
def generate_all_chats_loop (db : DB) (chats : List ChatRec) (now : PyDate) :
    List (Int × List WeeklyStatRec) × DB :=
  match chats with
  | [] => ([], db)
  | chat :: rest =>
      let r := generate_weekly_stats_for_chat db chat.chat_id now
      let rest_r := generate_all_chats_loop r.2 rest now
      ((chat.chat_id, r.1) :: rest_r.1, rest_r.2)

/-- `StatisticsService.generate_weekly_stats_for_all_chats()`: the first
statement of the `try` body calls `self.db_manager.get_all_active_chats()`,
a method `DatabaseManager` does not define — `AttributeError` — so the
`except Exception` arm returns the empty dict; the loop is dead code. -/
def generate_weekly_stats_for_all_chats (db : DB) (now : PyDate) :
    List (Int × List WeeklyStatRec) × DB :=
  match DatabaseManager.get_all_active_chats db with
  | Except.error _ => ([], db)
  | Except.ok chats => generate_all_chats_loop db chats now

/-- `StatisticsService.reset_weekly_tasks()`: its docstring says it
"generates statistics for the previous week and archives them"; the body
calls `generate_weekly_stats_for_all_chats()` (which takes no week
argument and reads the clock itself), performs no task archiving or
deletion (`TODO` in the source), and returns `True`. -/
def reset_weekly_tasks (db : DB) (now : PyDate) : Bool × DB :=
  let db1 := (generate_weekly_stats_for_all_chats db now).2
  (true, db1)

end StatisticsService

/-! ## Concrete fixtures

A one-user, one-chat store used by the concrete evaluations below.
`fixtureDate` (2025-01-09, a Thursday) lies in ISO week 2 of 2025. -/

/-- A registered, active user. -/
def fixtureUser : UserRec :=
  { user_id := 1, username := some "alice", first_name := none, last_name := none,
    is_active := true }

/-- An active group chat. -/
def fixtureChat : ChatRec :=
  { chat_id := 100, title := some "room", chat_type := "group", is_active := true }

/-- An active membership of `fixtureUser` in `fixtureChat`. -/
def fixtureMembership : UserChatRec := { user_id := 1, chat_id := 100, is_active := true }

/-- 2025-01-09: ISO week 2 of 2025, calendar year 2025. -/
def fixtureDate : PyDate := ⟨2025, 1, 9⟩

/-- A task of the fixture user in the fixture chat, tagged with the fixture
week (week 2 of 2025). -/
def mkFixtureTask (id : Nat) (status : String) : TaskRec :=
  { task_id := id, user_id := 1, chat_id := 100, description := "task",
    status := status, created_at := fixtureDate, updated_at := fixtureDate,
    week_number := 2, year := 2025 }

/-- The fixture store holding the given task rows. -/
def fixtureDB (tasks : List TaskRec) : DB :=
  { users := [fixtureUser], chats := [fixtureChat], user_chats := [fixtureMembership],
    tasks := tasks, weekly_stats := [], next_task_id := tasks.length + 1 }

/-! ## Helper lemmas -/

/-- Splitting `TaskService.create_task` at its SQLite-connection boundary:
it is exactly the read phase deciding, then the insert phase. -/
theorem create_task_phases (db : DB) (u c : Int) (desc : String) (now : PyDate) :
    TaskService.create_task db u c desc now =
      if TaskService.create_task_check db u c now then
        TaskService.create_task_insert db u c desc now
      else (none, db) := by
  unfold TaskService.create_task TaskService.create_task_check
    TaskService.create_task_insert
  cases h : DatabaseManager.get_user_chat db u c with
  | none => simp
  | some uc =>
      by_cases ha : uc.is_active
      · simp [ha]
        by_cases hc : DatabaseManager.count_user_tasks_in_chat db u c now.isoWeek now.year
            ≥ MAX_TASKS_PER_WEEK
        · simp [hc, Nat.not_lt.mpr hc]
        · simp [hc, Nat.lt_of_not_le hc]
      · simp [ha]

/-- The per-user statistics loop never changes the store: every per-user
save raises inside its inner `try` and is swallowed, leaving the threaded
state untouched. -/
theorem stats_loop_state_id (users : List UserRec) (db : DB) (c w y : Int) :
    (StatisticsService.generate_weekly_stats_for_chat_loop db users c w y).2 = db := by
  induction users generalizing db with
  | nil => rfl
  | cons u rest ih =>
      simp only [StatisticsService.generate_weekly_stats_for_chat_loop,
        DatabaseManager.create_or_update_weekly_stat]
      exact ih db

/-- Filtering by a conjunction of predicates yields at most as many rows as
filtering by the first conjunct alone. -/
theorem length_filter_and_le {α : Type} (l : List α) (p q : α → Bool) :
    (l.filter (fun a => p a && q a)).length ≤ (l.filter p).length := by
  induction l with
  | nil => simp
  | cons a rest ih =>
      simp only [List.filter_cons]
      cases hp : p a <;> cases hq : q a <;> simp [hp, hq] <;> omega

/-- Properties of the guarded completion-rate expression
`completion_rate = 0.0; if total > 0: completion_rate = completed / total`. -/
theorem completion_rate_props (completed total : Nat) (h : completed ≤ total) :
    0 ≤ (if total > 0 then (completed : ℚ) / (total : ℚ) else 0) ∧
    (if total > 0 then (completed : ℚ) / (total : ℚ) else 0) ≤ 1 ∧
    (total = 0 → (if total > 0 then (completed : ℚ) / (total : ℚ) else 0) = 0) ∧
    (0 < total → (if total > 0 then (completed : ℚ) / (total : ℚ) else 0)
      = (completed : ℚ) / (total : ℚ)) := by
  by_cases ht : 0 < total
  · rw [if_pos ht]
    refine ⟨by positivity, ?_, fun h0 => by omega, fun _ => rfl⟩
    apply div_le_one_of_le₀
    · exact_mod_cast h
    · positivity
  · rw [if_neg ht]
    exact ⟨le_refl 0, by norm_num, fun _ => rfl, fun hc => absurd hc ht⟩

/-- Every stat produced by the service-level per-user loop counts completed
tasks among created ones and carries the guarded rate of those counts. -/
theorem stats_loop_stat_shape (users : List UserRec) (db : DB) (c w y : Int)
    (s : WeeklyStatRec)
    (hs : s ∈ (StatisticsService.generate_weekly_stats_for_chat_loop db users c w y).1) :
    s.tasks_completed ≤ s.tasks_created ∧
    s.completion_rate = (if s.tasks_created > 0 then
      (s.tasks_completed : ℚ) / (s.tasks_created : ℚ) else 0) := by
  induction users generalizing db with
  | nil => simp [StatisticsService.generate_weekly_stats_for_chat_loop] at hs
  | cons u rest ih =>
      simp only [StatisticsService.generate_weekly_stats_for_chat_loop] at hs
      rcases List.mem_cons.mp hs with heq | hmem
      · subst heq
        exact ⟨List.length_filter_le _ _, rfl⟩
      · exact ih _ hmem

/-- Every stat the db-level generator builds (for each user it reaches
before the upsert crash) counts completed tasks among created ones and
carries the guarded rate of those counts. -/
theorem weekly_stat_for_user_shape (db : DB) (uid c w y : Int) :
    (DatabaseManager.weekly_stat_for_user db uid c w y).tasks_completed
      ≤ (DatabaseManager.weekly_stat_for_user db uid c w y).tasks_created ∧
    (DatabaseManager.weekly_stat_for_user db uid c w y).completion_rate
      = (if (DatabaseManager.weekly_stat_for_user db uid c w y).tasks_created > 0 then
          ((DatabaseManager.weekly_stat_for_user db uid c w y).tasks_completed : ℚ)
            / ((DatabaseManager.weekly_stat_for_user db uid c w y).tasks_created : ℚ)
        else 0) := by
  refine ⟨?_, rfl⟩
  exact length_filter_and_le db.tasks
    (fun t => t.user_id == uid && t.chat_id == c && t.week_number == w && t.year == y)
    (fun t => t.status == "completed")

/-! ## Claims -/

/-- A store with 4 tasks already recorded for the fixture user in the
current week (one below the MAX_TASKS_PER_WEEK = 5 quota). -/
def raceDB : DB := fixtureDB
  [mkFixtureTask 1 "created", mkFixtureTask 2 "created",
   mkFixtureTask 3 "completed", mkFixtureTask 4 "canceled"]

/-- C1: the at-most-MAX_TASKS_PER_WEEK invariant does NOT survive concurrent
`CreateTask` calls.  `create_task` is exactly its read phase (membership and
quota check) followed by its insert phase, each on a separate SQLite
connection; at a count of 4 the read phase approves, so two calls whose read
phases both see the 4-task snapshot both insert, leaving 6 > 5 tasks in the
week.  (Sequentially the bound holds, since the read phase re-checks the
count; the spec itself flags this check-then-insert race as a code bug.) -/
theorem create_task_quota_check_insert_race :
    (∀ db u c desc now,
      TaskService.create_task db u c desc now =
        if TaskService.create_task_check db u c now then
          TaskService.create_task_insert db u c desc now
        else (none, db)) ∧
    DatabaseManager.count_user_tasks_in_chat raceDB 1 100 2 2025 = 4 ∧
    TaskService.create_task_check raceDB 1 100 fixtureDate = true ∧
    (let db1 := (TaskService.create_task_insert raceDB 1 100 "five" fixtureDate).2
     let db2 := (TaskService.create_task_insert db1 1 100 "six" fixtureDate).2
     DatabaseManager.count_user_tasks_in_chat db2 1 100
       fixtureDate.isoWeek fixtureDate.year = 6) ∧
    ¬ (6 ≤ MAX_TASKS_PER_WEEK) := by
  refine ⟨create_task_phases, by decide, by decide, by decide, by decide⟩

/-- C2: `StatisticsService.generate_weekly_stats_for_all_chats` always
returns the empty map, whatever the store holds — its first statement calls
the nonexistent `DatabaseManager.get_all_active_chats`, the `AttributeError`
is swallowed by the `except` arm, and no chat is processed; in particular a
store with an active chat gets no entry for it. -/
theorem generate_all_chats_always_empty :
    (∀ db now, StatisticsService.generate_weekly_stats_for_all_chats db now = ([], db)) ∧
    (fixtureDB []).chats.filter (fun c => c.is_active) = [fixtureChat] := by
  exact ⟨fun _ _ => rfl, by decide⟩

/-- The store at the week boundary of the C3 scenario: one task created on
Thursday 2025-01-02, i.e. in ISO week 1 of 2025. -/
def c3DB : DB := fixtureDB
  [{ task_id := 1, user_id := 1, chat_id := 100, description := "w1 task",
     status := "completed", created_at := ⟨2025, 1, 2⟩, updated_at := ⟨2025, 1, 2⟩,
     week_number := 1, year := 2025 }]

/-- C3: `reset_weekly_tasks`, invoked at the Monday 00:00 boundary
(2025-01-06, the first instant of ISO week 2), returns `True` and clears no
task rows, but persists NO statistics at all — not for the week that just
ended (1, 2025) nor for any other: its generate-all call dies on the missing
`get_all_active_chats` attribute.  And even the live per-chat generator
would snapshot the NEW week ((2, 2025), with zero tasks), not the ended
week, because it reads the clock at invocation time. -/
theorem reset_weekly_tasks_snapshots_nothing :
    c3DB.tasks.map (fun t => (t.week_number, t.year)) = [(1, 2025)] ∧
    (⟨2025, 1, 6⟩ : PyDate).isoWeek = 2 ∧
    StatisticsService.reset_weekly_tasks c3DB ⟨2025, 1, 6⟩ = (true, c3DB) ∧
    DatabaseManager.get_weekly_stat
      (StatisticsService.reset_weekly_tasks c3DB ⟨2025, 1, 6⟩).2 1 100 1 2025 = none ∧
    (StatisticsService.generate_weekly_stats_for_chat c3DB 100 ⟨2025, 1, 6⟩).1.map
      (fun s => (s.week_number, s.year, s.tasks_created)) = [(2, 2025, 0)] := by
  refine ⟨by decide, by decide, rfl, by decide, by decide⟩

/-- C10: `get_user_tasks` with exactly one of week/year supplied ignores the
supplied value — the result is the current-week query, identical to the
no-arguments call. -/
theorem get_user_tasks_single_arg_ignored (db : DB) (u c w y : Int) (now : PyDate) :
    TaskService.get_user_tasks db u c (some w) none now
      = TaskService.get_user_tasks db u c none none now ∧
    TaskService.get_user_tasks db u c none (some y) now
      = TaskService.get_user_tasks db u c none none now ∧
    TaskService.get_user_tasks db u c (some w) none now
      = DatabaseManager.get_user_tasks_in_chat db u c (some now.isoWeek) (some now.year) :=
  ⟨rfl, rfl, rfl⟩

/-- A store with 2 current-week tasks: the next creation meets the
MIN_TASKS_PER_WEEK = 3 minimum. -/
def c4DB : DB := fixtureDB [mkFixtureTask 1 "created", mkFixtureTask 2 "created"]

/-- C4 counterexample: with an active membership and a current-week count of
2 < MAX_TASKS_PER_WEEK, the claimed report is
`max(0, MIN_TASKS_PER_WEEK - (2+1)) = 0`, but `can_create_task` reports NO
value — the `min_tasks_remaining` key is omitted once `(count+1)` reaches
the minimum, so it is never reported as 0. -/
theorem can_create_task_zero_never_reported :
    DatabaseManager.get_user_chat c4DB 1 100 = some fixtureMembership ∧
    fixtureMembership.is_active = true ∧
    DatabaseManager.count_user_tasks_in_chat c4DB 1 100
      fixtureDate.isoWeek fixtureDate.year = 2 ∧
    2 + 1 < MAX_TASKS_PER_WEEK ∧
    max 0 (MIN_TASKS_PER_WEEK - (2 + 1)) = 0 ∧
    (TaskService.can_create_task c4DB 1 100 fixtureDate).can_create = true ∧
    (TaskService.can_create_task c4DB 1 100 fixtureDate).min_tasks_remaining ≠ some 0 := by
  refine ⟨by decide, rfl, by decide, by decide, rfl, by decide, by decide⟩

/-- C4 (amended): under an active membership and a count below the maximum,
`can_create_task` allows creation and reports
`min_tasks_remaining = MIN_TASKS_PER_WEEK - (count+1)` exactly while
`count+1 < MIN_TASKS_PER_WEEK`, omitting the field once the minimum is met;
a successful creation raises the count by exactly 1, so the reported value
decreases by 1 per creation until the field disappears. -/
theorem can_create_task_min_remaining (db : DB) (u c : Int) (desc : String) (now : PyDate)
    (uc : UserChatRec)
    (hmem : DatabaseManager.get_user_chat db u c = some uc)
    (hact : uc.is_active = true)
    (hcnt : DatabaseManager.count_user_tasks_in_chat db u c now.isoWeek now.year
      < MAX_TASKS_PER_WEEK) :
    (TaskService.can_create_task db u c now).can_create = true ∧
    (TaskService.can_create_task db u c now).min_tasks_remaining =
      (if DatabaseManager.count_user_tasks_in_chat db u c now.isoWeek now.year + 1
          < MIN_TASKS_PER_WEEK then
        some (MIN_TASKS_PER_WEEK -
          (DatabaseManager.count_user_tasks_in_chat db u c now.isoWeek now.year + 1))
      else none) ∧
    (TaskService.create_task db u c desc now).1 = some db.next_task_id ∧
    DatabaseManager.count_user_tasks_in_chat (TaskService.create_task db u c desc now).2
        u c now.isoWeek now.year
      = DatabaseManager.count_user_tasks_in_chat db u c now.isoWeek now.year + 1 := by
  have hnotle : ¬ (MAX_TASKS_PER_WEEK ≤
      DatabaseManager.count_user_tasks_in_chat db u c now.isoWeek now.year) :=
    Nat.not_le.mpr hcnt
  refine ⟨?_, ?_, ?_, ?_⟩
  · simp [TaskService.can_create_task, hmem, hact, hnotle]
    split <;> rfl
  · simp [TaskService.can_create_task, hmem, hact, hnotle]
    split <;> rfl
  · simp [TaskService.create_task, hmem, hact, hnotle, DatabaseManager.create_task]
  · have h := hnotle
    simp only [DatabaseManager.count_user_tasks_in_chat] at h
    simp [TaskService.create_task, hmem, hact, DatabaseManager.create_task,
      DatabaseManager.count_user_tasks_in_chat, h, List.filter_append]

/-- C4 witness: on the empty fixture store the first creation is allowed
with 2 more still needed, and it raises the count to 1. -/
theorem can_create_task_min_remaining_witness :
    (TaskService.can_create_task (fixtureDB []) 1 100 fixtureDate).can_create = true ∧
    (TaskService.can_create_task (fixtureDB []) 1 100 fixtureDate).min_tasks_remaining
      = some 2 ∧
    DatabaseManager.count_user_tasks_in_chat
      (TaskService.create_task (fixtureDB []) 1 100 "first" fixtureDate).2 1 100
      fixtureDate.isoWeek fixtureDate.year = 1 := by
  have h := can_create_task_min_remaining (fixtureDB []) 1 100 "first" fixtureDate
    fixtureMembership (by decide) (by decide) (by decide)
  refine ⟨h.1, ?_, ?_⟩
  · rw [h.2.1]; decide
  · rw [h.2.2.2]; decide

/-- C5 counterexample: a task created on 2024-12-30 — a date whose ISO week
is week 1 of ISO year 2025 — records `week_number = 1` (the ISO week) but
`year = 2024` (the CALENDAR year, `now.year`), not the ISO week-based year
2025 the claim requires. -/
theorem task_year_is_calendar_not_iso_year :
    ((⟨2024, 12, 30⟩ : PyDate).isocalendar = (2025, 1, 1)) ∧
    (TaskService.create_task (fixtureDB []) 1 100 "prep" ⟨2024, 12, 30⟩).1 = some 1 ∧
    ((TaskService.create_task (fixtureDB []) 1 100 "prep" ⟨2024, 12, 30⟩).2.tasks.map
      (fun t => (t.week_number, t.year))) = [(1, 2024)] ∧
    (2024 : Int) ≠ 2025 := by
  refine ⟨by decide, by decide, by decide, by decide⟩

/-- C5 (amended): at creation a task records the ISO-8601 week number of
`created_at` together with its CALENDAR year (`now.year`, not the ISO
week-based year), computed once; status updates never change any task's
`week_number`/`year` (or id), and deletion only removes rows. -/
theorem task_week_year_computed_once (db : DB) (u c : Int) (desc : String) (now : PyDate)
    (uc : UserChatRec)
    (hmem : DatabaseManager.get_user_chat db u c = some uc)
    (hact : uc.is_active = true)
    (hcnt : DatabaseManager.count_user_tasks_in_chat db u c now.isoWeek now.year
      < MAX_TASKS_PER_WEEK) :
    (TaskService.create_task db u c desc now).2.tasks
      = db.tasks ++
        [{ task_id := db.next_task_id, user_id := u, chat_id := c,
           description := desc, status := "created", created_at := now,
           updated_at := now, week_number := now.isocalendar.2.1,
           year := now.year }] ∧
    (∀ db2 id st n2,
      ((TaskService.update_task_status db2 id st n2).2.tasks.map
          (fun t => (t.task_id, t.week_number, t.year)))
        = db2.tasks.map (fun t => (t.task_id, t.week_number, t.year))) ∧
    (∀ db2 id, ∀ t ∈ (TaskService.delete_task db2 id).2.tasks, t ∈ db2.tasks) := by
  have hnotle : ¬ (MAX_TASKS_PER_WEEK ≤
      DatabaseManager.count_user_tasks_in_chat db u c now.isoWeek now.year) :=
    Nat.not_le.mpr hcnt
  refine ⟨?_, ?_, ?_⟩
  · have h := hnotle
    simp only [PyDate.isoWeek] at h
    simp [TaskService.create_task, hmem, hact, h, DatabaseManager.create_task,
      PyDate.isoWeek]
  · intro db2 id st n2
    unfold TaskService.update_task_status
    split
    · rfl
    · cases h : DatabaseManager.get_task db2 id with
      | none => rfl
      | some t =>
          simp only [DatabaseManager.update_task, List.map_map]
          apply List.map_congr_left
          intro x hx
          simp only [Function.comp_apply]
          split <;> simp
  · intro db2 id t ht
    unfold TaskService.delete_task at ht
    cases h : DatabaseManager.get_task db2 id with
    | none => rw [h] at ht; exact ht
    | some t2 =>
        rw [h] at ht
        simp only [DatabaseManager.delete_task] at ht
        exact List.mem_of_mem_filter ht

/-- C5 witness: creating a task on the fixture date stores exactly one row
tagged (week 2, 2025), and a later status update leaves its week and year
untouched. -/
theorem task_week_year_computed_once_witness :
    (TaskService.create_task (fixtureDB []) 1 100 "w" fixtureDate).2.tasks
      = [{ task_id := 1, user_id := 1, chat_id := 100, description := "w",
           status := "created", created_at := fixtureDate, updated_at := fixtureDate,
           week_number := 2, year := 2025 }] ∧
    ((TaskService.update_task_status (fixtureDB [mkFixtureTask 1 "created"]) 1
        "completed" fixtureDate).2.tasks.map (fun t => (t.task_id, t.week_number, t.year)))
      = [(1, 2, 2025)] := by
  have h := task_week_year_computed_once (fixtureDB []) 1 100 "w" fixtureDate
    fixtureMembership (by decide) (by decide) (by decide)
  refine ⟨?_, ?_⟩
  · rw [h.1]; decide
  · rw [h.2.1 (fixtureDB [mkFixtureTask 1 "created"]) 1 "completed" fixtureDate]; decide

/-- C6: the claimed upsert semantics does not exist in the program.
`create_or_update_weekly_stat` raises `AttributeError` on every call —
the nested `get_weekly_stat`'s `finally` disconnect nulls the cursor
before the UPDATE/INSERT runs, and `except sqlite3.Error` does not catch
it — so it never persists a record and never returns `True`; the per-user
save inside `generate_weekly_stats_for_chat` swallows that error, so the
store is NEVER written (the db-level generator crashes outright on its
first member).  The identical-values half of the claim does hold,
trivially: repeated generation recomputes the same `WeeklyStat` values
because the store never changes at all. -/
theorem weekly_stats_upsert_never_persists :
    (∀ db stat, DatabaseManager.create_or_update_weekly_stat db stat
      = Except.error "AttributeError: NoneType cursor after get_weekly_stat disconnects") ∧
    (∀ db c now, (StatisticsService.generate_weekly_stats_for_chat db c now).2 = db) ∧
    (∀ db c now,
      (StatisticsService.generate_weekly_stats_for_chat
          ((StatisticsService.generate_weekly_stats_for_chat db c now).2) c now).1
        = (StatisticsService.generate_weekly_stats_for_chat db c now).1) ∧
    ((StatisticsService.generate_weekly_stats_for_chat
      (fixtureDB [mkFixtureTask 1 "created"]) 100 fixtureDate).2).weekly_stats = [] ∧
    DatabaseManager.generate_weekly_stats_for_chat (fixtureDB []) 100 2 2025
      = Except.error "AttributeError: NoneType cursor after get_weekly_stat disconnects" := by
  have hstate : ∀ db c now,
      (StatisticsService.generate_weekly_stats_for_chat db c now).2 = db :=
    fun db c now => stats_loop_state_id _ db c _ _
  refine ⟨fun _ _ => rfl, hstate, ?_, ?_, rfl⟩
  · intro db c now
    rw [hstate db c now]
  · rw [hstate (fixtureDB [mkFixtureTask 1 "created"]) 100 fixtureDate]
    rfl

/-- C7: every completion rate computed by statistics generation lies in
[0, 1], is exactly 0 when `tasks_created = 0` (the guard, so no division
by zero is reached), and equals `tasks_completed / tasks_created` when
`tasks_created > 0` — for every stat the service-level generator returns,
and for every stat the db-level generator builds (lines 664–667 run for
each user the iteration reaches before its upsert crash, so this covers
all rates that code path ever computes). -/
theorem completion_rate_in_unit_interval (db : DB) (c : Int) (now : PyDate) :
    (∀ s ∈ (StatisticsService.generate_weekly_stats_for_chat db c now).1,
      0 ≤ s.completion_rate ∧ s.completion_rate ≤ 1 ∧
      (s.tasks_created = 0 → s.completion_rate = 0) ∧
      (0 < s.tasks_created →
        s.completion_rate = (s.tasks_completed : ℚ) / (s.tasks_created : ℚ))) ∧
    (∀ w y uid : Int,
      0 ≤ (DatabaseManager.weekly_stat_for_user db uid c w y).completion_rate ∧
      (DatabaseManager.weekly_stat_for_user db uid c w y).completion_rate ≤ 1 ∧
      ((DatabaseManager.weekly_stat_for_user db uid c w y).tasks_created = 0 →
        (DatabaseManager.weekly_stat_for_user db uid c w y).completion_rate = 0) ∧
      (0 < (DatabaseManager.weekly_stat_for_user db uid c w y).tasks_created →
        (DatabaseManager.weekly_stat_for_user db uid c w y).completion_rate
          = ((DatabaseManager.weekly_stat_for_user db uid c w y).tasks_completed : ℚ)
            / ((DatabaseManager.weekly_stat_for_user db uid c w y).tasks_created : ℚ))) := by
  constructor
  · intro s hs
    have hshape := stats_loop_stat_shape _ _ _ _ _ s hs
    have hp := completion_rate_props s.tasks_completed s.tasks_created hshape.1
    rw [hshape.2]
    exact hp
  · intro w y uid
    have hshape := weekly_stat_for_user_shape db uid c w y
    have hp := completion_rate_props
      (DatabaseManager.weekly_stat_for_user db uid c w y).tasks_completed
      (DatabaseManager.weekly_stat_for_user db uid c w y).tasks_created hshape.1
    rw [hshape.2]
    exact hp

/-- The stat generated for the fixture user on an empty week: zero counts
and the guarded rate 0 (the division guard's `tasks_created = 0` case). -/
def c7Stat : WeeklyStatRec :=
  { user_id := 1, chat_id := 100, week_number := 2, year := 2025,
    tasks_created := 0, tasks_completed := 0, tasks_canceled := 0,
    completion_rate := 0 }

/-- C7 witness: the stat generated on the empty fixture store is in the
output and its rate obeys the bounds and the zero-guard. -/
theorem completion_rate_in_unit_interval_witness :
    0 ≤ c7Stat.completion_rate ∧ c7Stat.completion_rate ≤ 1 ∧
    (c7Stat.tasks_created = 0 → c7Stat.completion_rate = 0) ∧
    (0 < c7Stat.tasks_created →
      c7Stat.completion_rate = (c7Stat.tasks_completed : ℚ) / (c7Stat.tasks_created : ℚ)) :=
  (completion_rate_in_unit_interval (fixtureDB []) 100 fixtureDate).1 c7Stat (by decide)

/-- C8: `update_task_status` fails and leaves the store untouched on an
invalid status or an unknown task id; on success (any of the three valid
statuses, including reverse transitions) it returns `True` and rewrites
exactly the addressed row with the new status and `updated_at := now`,
leaving its id, week and year — and every other row and table — unchanged.
(`hids` is the AUTOINCREMENT uniqueness of `tasks.task_id`.) -/
theorem update_task_status_frame (db : DB) (id : Nat) (st : String) (now : PyDate)
    (hids : (db.tasks.map (fun t => t.task_id)).Nodup) :
    (TASK_STATUS_values.contains st = false →
      TaskService.update_task_status db id st now = (false, db)) ∧
    (DatabaseManager.get_task db id = none →
      TaskService.update_task_status db id st now = (false, db)) ∧
    (∀ t, TASK_STATUS_values.contains st = true →
      DatabaseManager.get_task db id = some t →
      (TaskService.update_task_status db id st now).1 = true ∧
      (TaskService.update_task_status db id st now).2.tasks
        = db.tasks.map (fun r =>
            if r.task_id == id then { r with status := st, updated_at := now }
            else r) ∧
      (TaskService.update_task_status db id st now).2.users = db.users ∧
      (TaskService.update_task_status db id st now).2.weekly_stats = db.weekly_stats) := by
  refine ⟨?_, ?_, ?_⟩
  · intro hst
    unfold TaskService.update_task_status
    rw [hst]
    simp
  · intro hnone
    unfold TaskService.update_task_status
    split
    · rfl
    · rw [hnone]
  · intro t hst hsome
    have hsome2 : db.tasks.find? (fun x => x.task_id == id) = some t := hsome
    have hmem := List.mem_of_find?_eq_some hsome2
    have hpred0 := List.find?_some hsome2
    have hpred : (t.task_id == id) = true := hpred0
    have hres : TaskService.update_task_status db id st now
        = DatabaseManager.update_task db
            { t with status := st, updated_at := now } := by
      unfold TaskService.update_task_status
      rw [hst, hsome]
      rfl
    rw [hres]
    simp only [DatabaseManager.update_task]
    refine ⟨trivial, ?_, trivial, trivial⟩
    apply List.map_congr_left
    intro x hx
    by_cases hxid : (x.task_id == id) = true
    · have hxt : x = t := by
        apply List.inj_on_of_nodup_map hids hx hmem
        simp at hxid hpred
        rw [hxid, hpred]
      subst hxt
      simp [hxid]
    · have hfalse : (x.task_id == t.task_id) = false := by
        simp at hxid ⊢
        intro hcontra
        simp at hpred
        rw [hcontra] at hxid
        exact hxid hpred
      simp [hxid, hfalse]

/-- C8 witness: completing task 1 and then reverting it to "created" both
succeed and keep (id, week, year) = (1, 2, 2025); an invalid status and an
unknown id both fail and change nothing. -/
theorem update_task_status_frame_witness :
    (TaskService.update_task_status (fixtureDB [mkFixtureTask 1 "created"]) 1
      "completed" fixtureDate).1 = true ∧
    (TaskService.update_task_status (fixtureDB [mkFixtureTask 1 "completed"]) 1
      "created" fixtureDate).2.tasks = [mkFixtureTask 1 "created"] ∧
    TaskService.update_task_status (fixtureDB [mkFixtureTask 1 "created"]) 1
      "done" fixtureDate = (false, fixtureDB [mkFixtureTask 1 "created"]) ∧
    TaskService.update_task_status (fixtureDB [mkFixtureTask 1 "created"]) 9
      "completed" fixtureDate = (false, fixtureDB [mkFixtureTask 1 "created"]) := by
  have hup := (update_task_status_frame (fixtureDB [mkFixtureTask 1 "created"]) 1
    "completed" fixtureDate (by decide)).2.2 (mkFixtureTask 1 "created")
    (by decide) (by decide)
  have hrev := (update_task_status_frame (fixtureDB [mkFixtureTask 1 "completed"]) 1
    "created" fixtureDate (by decide)).2.2 (mkFixtureTask 1 "completed")
    (by decide) (by decide)
  have hbad := (update_task_status_frame (fixtureDB [mkFixtureTask 1 "created"]) 1
    "done" fixtureDate (by decide)).1 (by decide)
  have hmiss := (update_task_status_frame (fixtureDB [mkFixtureTask 1 "created"]) 9
    "completed" fixtureDate (by decide)).2.1 (by decide)
  refine ⟨hup.1, ?_, hbad, hmiss⟩
  rw [hrev.2.1]
  decide

/-- C9: `delete_task` on a missing id — including an id already deleted —
returns `False` without touching the store (the service checks `get_task`
first, so no exception path is reached); on an existing id it returns
`True` and removes exactly the rows bearing that id, leaving every other
task and table unchanged; and re-deleting the same id afterwards fails. -/
theorem delete_task_missing_id_frame (db : DB) (id : Nat) :
    (DatabaseManager.get_task db id = none →
      TaskService.delete_task db id = (false, db)) ∧
    (∀ t, DatabaseManager.get_task db id = some t →
      (TaskService.delete_task db id).1 = true ∧
      (TaskService.delete_task db id).2.tasks
        = db.tasks.filter (fun r => !(r.task_id == id)) ∧
      (TaskService.delete_task db id).2.users = db.users ∧
      (TaskService.delete_task db id).2.weekly_stats = db.weekly_stats) ∧
    (TaskService.delete_task (TaskService.delete_task db id).2 id
      = (false, (TaskService.delete_task db id).2)) := by
  refine ⟨?_, ?_, ?_⟩
  · intro hnone
    unfold TaskService.delete_task
    rw [hnone]
  · intro t hsome
    have hmem := List.mem_of_find?_eq_some hsome
    have hpred := List.find?_some hsome
    unfold TaskService.delete_task
    rw [hsome]
    refine ⟨?_, rfl, rfl, rfl⟩
    simp only [DatabaseManager.delete_task]
    exact decide_eq_true
      (List.length_filter_lt_length_iff_exists.mpr ⟨t, hmem, by simp [hpred]⟩)
  · have hgone : DatabaseManager.get_task (TaskService.delete_task db id).2 id = none := by
      unfold TaskService.delete_task
      cases hfind : DatabaseManager.get_task db id with
      | none => exact hfind
      | some t =>
          simp only [DatabaseManager.delete_task, DatabaseManager.get_task]
          apply List.find?_eq_none.mpr
          intro x hx
          have := List.mem_filter.mp hx
          simp at this
          simp [this.2]
    generalize hd : (TaskService.delete_task db id).2 = d2 at hgone ⊢
    unfold TaskService.delete_task
    rw [hgone]

/-- C9 witness: deleting task 1 of two succeeds and leaves only task 2;
deleting id 7 from an empty store fails and changes nothing. -/
theorem delete_task_missing_id_frame_witness :
    (TaskService.delete_task
      (fixtureDB [mkFixtureTask 1 "created", mkFixtureTask 2 "created"]) 1).1 = true ∧
    (TaskService.delete_task
      (fixtureDB [mkFixtureTask 1 "created", mkFixtureTask 2 "created"]) 1).2.tasks
      = [mkFixtureTask 2 "created"] ∧
    TaskService.delete_task (fixtureDB []) 7 = (false, fixtureDB []) := by
  have h := (delete_task_missing_id_frame
    (fixtureDB [mkFixtureTask 1 "created", mkFixtureTask 2 "created"]) 1).2.1
    (mkFixtureTask 1 "created") (by decide)
  have hmiss := (delete_task_missing_id_frame (fixtureDB []) 7).1 (by decide)
  refine ⟨h.1, ?_, hmiss⟩
  rw [h.2.1]
  decide
